import Mathlib

/-!
Verification of the FHIR bundle processing core (`FhirService`):
bundle validation, resource categorization, narrative rendering and
entry counting.  The definitions below are a shallow embedding of the
TypeScript service; JavaScript optional/truthy semantics are made
explicit (`Option String` for possibly-missing string fields, with
empty strings falsy).
-/

/-- JavaScript `x || d` for a possibly-missing string `x`:
the fallback `d` is used when `x` is absent or the empty string. -/
def jsOrD (o : Option String) (d : String) : String :=
  match o with
  | some s => if s = "" then d else s
  | none => d

/-- JavaScript truthiness of a possibly-missing string:
present and non-empty. -/
def strTruthy (o : Option String) : Bool :=
  match o with
  | some s => s != ""
  | none => false

/-- JavaScript `a || b` where both operands are possibly-missing strings
(the result may itself be missing). -/
def jsOrOpt (a b : Option String) : Option String :=
  if strTruthy a then a else b

/-- Rendering of a possibly-missing string in a template literal:
JavaScript prints `undefined` for a missing value. -/
def jsShow (o : Option String) : String :=
  match o with
  | some s => s
  | none => "undefined"

/-- JavaScript `String.prototype.trim`: remove leading and trailing
whitespace (defined on the character list so that it computes). -/
def jsTrim (s : String) : String :=
  (((s.toList.dropWhile Char.isWhitespace).reverse.dropWhile Char.isWhitespace).reverse).asString

/-- A `system`/`code`/`display` triple (FHIR Coding). -/
structure Coding where
  system : Option String := none
  code : Option String := none
  display : Option String := none
  deriving Repr, DecidableEq

/-- A coding list with an optional plain-text override (FHIR CodeableConcept). -/
structure CodeableConcept where
  coding : Option (List Coding) := none
  text : Option String := none
  deriving Repr, DecidableEq

/-- One entry of a patient's `name` array. -/
structure HumanName where
  given : Option (List String) := none
  family : Option String := none
  use : Option String := none
  deriving Repr, DecidableEq

/-- An observation quantity value.  The JavaScript `number` is embedded
as `Int`; no verified property depends on non-integral values. -/
structure Quantity where
  value : Int
  unit : Option String := none
  deriving Repr, DecidableEq

/-- A subject reference wrapper. -/
structure Reference where
  reference : Option String := none
  deriving Repr, DecidableEq

/-- A clinical-status wrapper holding a coding list. -/
structure ClinicalStatus where
  coding : Option (List Coding) := none
  deriving Repr, DecidableEq

/-- A FHIR resource as the service actually consumes it: the union of
the fields accessed across the `Patient`, `Condition`, `Medication`,
`MedicationRequest` and `Observation` views of the duck-typed
`FhirResource`, all optional except the type tag. -/
structure Resource where
  resourceType : String
  id : Option String := none
  name : Option (List HumanName) := none
  gender : Option String := none
  birthDate : Option String := none
  subject : Option Reference := none
  code : Option CodeableConcept := none
  clinicalStatus : Option ClinicalStatus := none
  medicationCodeableConcept : Option CodeableConcept := none
  valueQuantity : Option Quantity := none
  valueString : Option String := none
  valueCodeableConcept : Option CodeableConcept := none
  deriving Repr, DecidableEq

/-- One slot of a bundle's `entry` array, optionally wrapping a resource. -/
structure BundleEntry where
  resource : Option Resource := none
  deriving Repr, DecidableEq

/-- A validated FHIR bundle as consumed downstream of validation:
only `type` and `entry` are ever read. -/
structure Bundle where
  type : String
  entry : Option (List BundleEntry) := none
  deriving Repr, DecidableEq

/-- The five buckets produced by `extractResources`. -/
structure Categorized where
  patients : List Resource := []
  conditions : List Resource := []
  medications : List Resource := []
  observations : List Resource := []
  other : List Resource := []
  deriving Repr, DecidableEq

/-- The `switch (resource.resourceType)` dispatch of `extractResources`:
push the resource onto the bucket selected by its type tag. -/
def categorizeResource (acc : Categorized) (r : Resource) : Categorized :=
  if r.resourceType == "Patient" then
    { acc with patients := acc.patients ++ [r] }
  else if r.resourceType == "Condition" then
    { acc with conditions := acc.conditions ++ [r] }
  else if r.resourceType == "Medication" || r.resourceType == "MedicationRequest" then
    { acc with medications := acc.medications ++ [r] }
  else if r.resourceType == "Observation" then
    { acc with observations := acc.observations ++ [r] }
  else
    { acc with other := acc.other ++ [r] }

/-- The `for (const entry of bundle.entry)` loop of `extractResources`:
entries without a resource are skipped (`continue`). -/
def extractLoop : List BundleEntry → Categorized → Categorized
  | [], acc => acc
  | e :: es, acc =>
    extractLoop es
      (match e.resource with
       | none => acc
       | some r => categorizeResource acc r)

/-- `FhirService.extractResources`: categorize the entries of a bundle
into the five buckets (empty buckets when the entry array is missing). -/
def extractResources (bundle : Bundle) : Categorized :=
  match bundle.entry with
  | none => {}
  | some es => extractLoop es {}

/-- `FhirService.extractPatientName`. -/
def extractPatientName (patient : Resource) : String :=
  match patient.name with
  | none => "Patient ID: " ++ jsOrD patient.id "unknown"
  | some [] => "Patient ID: " ++ jsOrD patient.id "unknown"
  | some (n :: _) =>
    let given := match n.given with
      | some gs => String.intercalate " " gs
      | none => ""
    let family := jsOrD n.family ""
    let full := jsTrim (given ++ " " ++ family)
    if full = "" then "Patient ID: " ++ jsOrD patient.id "unknown" else full

/-- `FhirService.extractPatientDemographics`. -/
def extractPatientDemographics (patient : Resource) : String :=
  let demographics :=
    (if strTruthy patient.gender then ["Gender: " ++ jsShow patient.gender] else [])
      ++ (if strTruthy patient.birthDate then ["DOB: " ++ jsShow patient.birthDate] else [])
  if demographics.length > 0 then " (" ++ String.intercalate ", " demographics ++ ")" else ""

/-- The shared name-resolution chain: plain text if truthy, else the
first coding's `display || code`, else the given fallback literal. -/
def codeTextOf (cc : Option CodeableConcept) (fallback : String) : String :=
  if strTruthy (cc.bind CodeableConcept.text) then
    jsShow (cc.bind CodeableConcept.text)
  else
    match cc.bind CodeableConcept.coding with
    | some (k :: _) => jsShow (jsOrOpt k.display k.code)
    | _ => fallback

/-- ` (Patient: {reference})` suffix when a subject reference is truthy. -/
def subjectSuffix (subject : Option Reference) : String :=
  if strTruthy (subject.bind Reference.reference) then
    " (Patient: " ++ jsShow (subject.bind Reference.reference) ++ ")"
  else ""

/-- `FhirService.extractConditionText`. -/
def extractConditionText (condition : Resource) : String :=
  let text := codeTextOf condition.code "Unknown condition"
  let text := text ++ subjectSuffix condition.subject
  let statusCode :=
    ((condition.clinicalStatus.bind ClinicalStatus.coding).bind List.head?).bind Coding.code
  if strTruthy statusCode then text ++ " - Status: " ++ jsShow statusCode else text

/-- `FhirService.extractMedicationText`. -/
def extractMedicationText (medication : Resource) : String :=
  let text := codeTextOf medication.medicationCodeableConcept "Unknown medication"
  text ++ subjectSuffix medication.subject

/-- `FhirService.extractObservationText`. -/
def extractObservationText (observation : Resource) : String :=
  let text := codeTextOf observation.code "Unknown observation"
  let text :=
    match observation.valueQuantity with
    | some q => text ++ ": " ++ toString q.value ++ " " ++ jsOrD q.unit ""
    | none =>
      if strTruthy observation.valueString then
        text ++ ": " ++ jsShow observation.valueString
      else if strTruthy (observation.valueCodeableConcept.bind CodeableConcept.text) then
        text ++ ": " ++ jsShow (observation.valueCodeableConcept.bind CodeableConcept.text)
      else if strTruthy
          (((observation.valueCodeableConcept.bind CodeableConcept.coding).bind List.head?).bind
            Coding.display) then
        text ++ ": " ++
          jsShow
            (((observation.valueCodeableConcept.bind CodeableConcept.coding).bind List.head?).bind
              Coding.display)
      else text
  text ++ subjectSuffix observation.subject

/-- The `forEach` body shared by every section: 1-based numbered lines,
one per resource, each ended by a newline. -/
def numberedLines (f : Resource → String) (rs : List Resource) : String :=
  String.join (rs.enum.map (fun p => toString (p.1 + 1) ++ ". " ++ f p.2 ++ "\n"))

/-- The line rendered for one resource of the `other` bucket. -/
def otherLine (r : Resource) : String :=
  r.resourceType ++ " (ID: " ++ jsOrD r.id "unknown" ++ ")"

/-- `FhirService.convertToHumanReadable`: sequential append of the five
sections, each guarded by its bucket being non-empty. -/
def convertToHumanReadable (resources : Categorized) : String :=
  let text := ""
  let text :=
    if resources.patients.length > 0 then
      text ++ "PATIENTS:\n"
        ++ numberedLines (fun p => extractPatientName p ++ extractPatientDemographics p)
            resources.patients
        ++ "\n"
    else text
  let text :=
    if resources.conditions.length > 0 then
      text ++ "MEDICAL CONDITIONS:\n" ++ numberedLines extractConditionText resources.conditions
        ++ "\n"
    else text
  let text :=
    if resources.medications.length > 0 then
      text ++ "MEDICATIONS:\n" ++ numberedLines extractMedicationText resources.medications ++ "\n"
    else text
  let text :=
    if resources.observations.length > 0 then
      text ++ "OBSERVATIONS/VITAL SIGNS:\n"
        ++ numberedLines extractObservationText resources.observations ++ "\n"
    else text
  let text :=
    if resources.other.length > 0 then
      text ++ "OTHER RESOURCES:\n" ++ numberedLines otherLine resources.other
    else text
  text

/-- `FhirService.countResources`: `bundle.entry?.length || 0`. -/
def countResources (bundle : Bundle) : Nat :=
  match bundle.entry with
  | some es => es.length
  | none => 0

/-!
`validateAndProcessBundle` receives an arbitrary JavaScript value
(`bundle: any`), so it is embedded over a model of JavaScript values.
-/

/-- A JavaScript value as far as the validator can observe it. -/
inductive JsValue where
  | jsUndefined : JsValue
  | null : JsValue
  | bool : Bool → JsValue
  | num : Int → JsValue
  | str : String → JsValue
  | arr : List JsValue → JsValue
  | obj : List (String × JsValue) → JsValue

/-- JavaScript truthiness (`!v` negated). -/
def truthy : JsValue → Bool
  | .jsUndefined => false
  | .null => false
  | .bool b => b
  | .num n => n != 0
  | .str s => s != ""
  | .arr _ => true
  | .obj _ => true

/-- `typeof v === "object"`. -/
def isObjectType : JsValue → Bool
  | .null => true
  | .arr _ => true
  | .obj _ => true
  | _ => false

/-- `Array.isArray(v)`. -/
def isArray : JsValue → Bool
  | .arr _ => true
  | _ => false

/-- `v === s` for a string literal `s` (strict equality). -/
def isStr (v : JsValue) (s : String) : Bool :=
  match v with
  | .str t => t == s
  | _ => false

/-- First binding of a key in an object's field list (object keys are
unique in JavaScript; lookup keeps the first). -/
def lookupKey : List (String × JsValue) → String → JsValue
  | [], _ => .jsUndefined
  | (k', v) :: fs, k => if k' == k then v else lookupKey fs k

/-- Property read `v.k`: a field of an object, `undefined` otherwise. -/
def getField (v : JsValue) (k : String) : JsValue :=
  match v with
  | .obj fs => lookupKey fs k
  | _ => .jsUndefined

/-- Replace the binding of a key, or append it when absent. -/
def setKey : List (String × JsValue) → String → JsValue → List (String × JsValue)
  | [], k, w => [(k, w)]
  | (k', v) :: fs, k, w => if k' == k then (k, w) :: fs else (k', v) :: setKey fs k w

/-- Property write `v.k = w` on an object (the validator only reaches
this assignment with an object in hand). -/
def setField (v : JsValue) (k : String) (w : JsValue) : JsValue :=
  match v with
  | .obj fs => .obj (setKey fs k w)
  | _ => v

/-- `FhirService.validateAndProcessBundle`: the three guard checks, the
normalization of a non-array `entry` to `[]`, and the returned bundle.
The error is the `BadRequestException` message. -/
def validateAndProcessBundle (bundle : JsValue) : Except String JsValue :=
  if !(truthy bundle && isObjectType bundle) then
    .error "Invalid bundle: must be an object"
  else if !isStr (getField bundle "resourceType") "Bundle" then
    .error "Invalid bundle: resourceType must be \"Bundle\""
  else if !truthy (getField bundle "type") then
    .error "Invalid bundle: type is required"
  else if !isArray (getField bundle "entry") then
    .ok (setField bundle "entry" (.arr []))
  else
    .ok bundle

/-!
Specification-side definitions, written from the spec's words, to be
compared with the embedded code.
-/

/-- The resources of an entry list, in order, skipping entries without
a resource. -/
def entryResources (es : List BundleEntry) : List Resource :=
  es.filterMap BundleEntry.resource

/-- `"Medication"` and `"MedicationRequest"` share the medications bucket. -/
def isMedicationType (t : String) : Bool :=
  t == "Medication" || t == "MedicationRequest"

/-- The recognized resource-type tags. -/
def isRecognizedType (t : String) : Bool :=
  t == "Patient" || t == "Condition" || isMedicationType t || t == "Observation"

/-- Spec: categorization is a strict partition dispatching purely on
the resource-type tag, preserving source order within each bucket. -/
def categorizedSpec (rs : List Resource) : Categorized where
  patients := rs.filter (fun r => r.resourceType == "Patient")
  conditions := rs.filter (fun r => r.resourceType == "Condition")
  medications := rs.filter (fun r => isMedicationType r.resourceType)
  observations := rs.filter (fun r => r.resourceType == "Observation")
  other := rs.filter (fun r => !isRecognizedType r.resourceType)

/-- Spec: name of the first name entry (given names joined by single
spaces, family appended after a space, trimmed), with the
`Patient ID: {id or "unknown"}` fallback when the result is empty. -/
def patientNameSpec (p : Resource) : String :=
  let joined :=
    match p.name with
    | some (n :: _) =>
      jsTrim (String.intercalate " " (n.given.getD []) ++ " " ++ n.family.getD "")
    | _ => ""
  if joined = "" then "Patient ID: " ++ jsOrD p.id "unknown" else joined

/-- Spec: the observation value suffix, chosen by the fixed priority
quantity, then plain string, then coded-concept text, then the first
coding's display, then nothing. -/
def obsValueSuffixSpec (o : Resource) : String :=
  match o.valueQuantity with
  | some q => ": " ++ toString q.value ++ " " ++ jsOrD q.unit ""
  | none =>
    if strTruthy o.valueString then
      ": " ++ jsShow o.valueString
    else if strTruthy (o.valueCodeableConcept.bind CodeableConcept.text) then
      ": " ++ jsShow (o.valueCodeableConcept.bind CodeableConcept.text)
    else if strTruthy
        (((o.valueCodeableConcept.bind CodeableConcept.coding).bind List.head?).bind
          Coding.display) then
      ": " ++
        jsShow
          (((o.valueCodeableConcept.bind CodeableConcept.coding).bind List.head?).bind
            Coding.display)
    else ""

/-- Spec: the patients section (header, numbered lines, trailing blank
line), empty when the bucket is empty. -/
def patientsSection (ps : List Resource) : String :=
  if ps.isEmpty then "" else
    "PATIENTS:\n"
      ++ numberedLines (fun p => extractPatientName p ++ extractPatientDemographics p) ps ++ "\n"

/-- Spec: the conditions section, empty when the bucket is empty. -/
def conditionsSection (cs : List Resource) : String :=
  if cs.isEmpty then "" else
    "MEDICAL CONDITIONS:\n" ++ numberedLines extractConditionText cs ++ "\n"

/-- Spec: the medications section, empty when the bucket is empty. -/
def medicationsSection (ms : List Resource) : String :=
  if ms.isEmpty then "" else
    "MEDICATIONS:\n" ++ numberedLines extractMedicationText ms ++ "\n"

/-- Spec: the observations section, empty when the bucket is empty. -/
def observationsSection (os : List Resource) : String :=
  if os.isEmpty then "" else
    "OBSERVATIONS/VITAL SIGNS:\n" ++ numberedLines extractObservationText os ++ "\n"

/-- Spec: the other-resources section (no trailing blank line), empty
when the bucket is empty. -/
def otherSection (rs : List Resource) : String :=
  if rs.isEmpty then "" else "OTHER RESOURCES:\n" ++ numberedLines otherLine rs

/-!
Lemmas about categorization.
-/

lemma categorizeResource_patients (acc : Categorized) (r : Resource) :
    (categorizeResource acc r).patients =
      if r.resourceType == "Patient" then acc.patients ++ [r] else acc.patients := by
  unfold categorizeResource
  split_ifs <;> simp_all

lemma categorizeResource_conditions (acc : Categorized) (r : Resource) :
    (categorizeResource acc r).conditions =
      if r.resourceType == "Condition" then acc.conditions ++ [r] else acc.conditions := by
  unfold categorizeResource
  split_ifs <;> simp_all

lemma categorizeResource_medications (acc : Categorized) (r : Resource) :
    (categorizeResource acc r).medications =
      if isMedicationType r.resourceType then acc.medications ++ [r] else acc.medications := by
  unfold categorizeResource isMedicationType
  split_ifs <;> simp_all

lemma categorizeResource_observations (acc : Categorized) (r : Resource) :
    (categorizeResource acc r).observations =
      if r.resourceType == "Observation" then acc.observations ++ [r] else acc.observations := by
  unfold categorizeResource
  split_ifs <;> simp_all

lemma categorizeResource_other (acc : Categorized) (r : Resource) :
    (categorizeResource acc r).other =
      if isRecognizedType r.resourceType then acc.other else acc.other ++ [r] := by
  unfold categorizeResource isRecognizedType isMedicationType
  split_ifs <;> simp_all

lemma extractLoop_patients : ∀ (es : List BundleEntry) (acc : Categorized),
    (extractLoop es acc).patients =
      acc.patients ++ (entryResources es).filter (fun r => r.resourceType == "Patient") := by
  intro es
  induction es with
  | nil => intro acc; simp [extractLoop, entryResources]
  | cons e es ih =>
    intro acc
    cases he : e.resource with
    | none => simp [extractLoop, he, ih, entryResources]
    | some r =>
      simp only [extractLoop, he, ih, entryResources, List.filterMap_cons, List.filter_cons,
        categorizeResource_patients]
      by_cases hp : r.resourceType == "Patient" <;> simp [hp, entryResources]

lemma extractLoop_conditions : ∀ (es : List BundleEntry) (acc : Categorized),
    (extractLoop es acc).conditions =
      acc.conditions ++ (entryResources es).filter (fun r => r.resourceType == "Condition") := by
  intro es
  induction es with
  | nil => intro acc; simp [extractLoop, entryResources]
  | cons e es ih =>
    intro acc
    cases he : e.resource with
    | none => simp [extractLoop, he, ih, entryResources]
    | some r =>
      simp only [extractLoop, he, ih, entryResources, List.filterMap_cons, List.filter_cons,
        categorizeResource_conditions]
      by_cases hp : r.resourceType == "Condition" <;> simp [hp, entryResources]

lemma extractLoop_medications : ∀ (es : List BundleEntry) (acc : Categorized),
    (extractLoop es acc).medications =
      acc.medications ++ (entryResources es).filter (fun r => isMedicationType r.resourceType) := by
  intro es
  induction es with
  | nil => intro acc; simp [extractLoop, entryResources]
  | cons e es ih =>
    intro acc
    cases he : e.resource with
    | none => simp [extractLoop, he, ih, entryResources]
    | some r =>
      simp only [extractLoop, he, ih, entryResources, List.filterMap_cons, List.filter_cons,
        categorizeResource_medications]
      by_cases hp : isMedicationType r.resourceType <;> simp [hp, entryResources]

lemma extractLoop_observations : ∀ (es : List BundleEntry) (acc : Categorized),
    (extractLoop es acc).observations =
      acc.observations ++ (entryResources es).filter (fun r => r.resourceType == "Observation") := by
  intro es
  induction es with
  | nil => intro acc; simp [extractLoop, entryResources]
  | cons e es ih =>
    intro acc
    cases he : e.resource with
    | none => simp [extractLoop, he, ih, entryResources]
    | some r =>
      simp only [extractLoop, he, ih, entryResources, List.filterMap_cons, List.filter_cons,
        categorizeResource_observations]
      by_cases hp : r.resourceType == "Observation" <;> simp [hp, entryResources]

lemma extractLoop_other : ∀ (es : List BundleEntry) (acc : Categorized),
    (extractLoop es acc).other =
      acc.other ++ (entryResources es).filter (fun r => !isRecognizedType r.resourceType) := by
  intro es
  induction es with
  | nil => intro acc; simp [extractLoop, entryResources]
  | cons e es ih =>
    intro acc
    cases he : e.resource with
    | none => simp [extractLoop, he, ih, entryResources]
    | some r =>
      simp only [extractLoop, he, ih, entryResources, List.filterMap_cons, List.filter_cons,
        categorizeResource_other]
      by_cases hp : isRecognizedType r.resourceType <;> simp [hp, entryResources]

lemma filter_five_partition_length (rs : List Resource) :
    (rs.filter (fun r => r.resourceType == "Patient")).length
      + (rs.filter (fun r => r.resourceType == "Condition")).length
      + (rs.filter (fun r => isMedicationType r.resourceType)).length
      + (rs.filter (fun r => r.resourceType == "Observation")).length
      + (rs.filter (fun r => !isRecognizedType r.resourceType)).length
      = rs.length := by
  induction rs with
  | nil => simp
  | cons r rs ih =>
    simp only [List.filter_cons]
    by_cases h1 : r.resourceType = "Patient" <;>
      by_cases h2 : r.resourceType = "Condition" <;>
      by_cases h3 : r.resourceType = "Medication" <;>
      by_cases h4 : r.resourceType = "MedicationRequest" <;>
      by_cases h5 : r.resourceType = "Observation" <;>
      simp_all [isRecognizedType, isMedicationType] <;> omega

lemma extractLoop_spec (es : List BundleEntry) :
    extractLoop es {} = categorizedSpec (entryResources es) := by
  have h1 := extractLoop_patients es {}
  have h2 := extractLoop_conditions es {}
  have h3 := extractLoop_medications es {}
  have h4 := extractLoop_observations es {}
  have h5 := extractLoop_other es {}
  cases hE : extractLoop es {} with
  | mk p c m o t =>
    rw [hE] at h1 h2 h3 h4 h5
    simp only [List.nil_append] at h1 h2 h3 h4 h5
    simp [categorizedSpec, h1, h2, h3, h4, h5]

/-- Claim C2: for every bundle, `extractResources` is a strict
partition: entries without a resource are skipped, each present
resource lands in exactly one of the five buckets, dispatch is purely
on `resourceType` with `Medication` and `MedicationRequest` sharing
the medications bucket and unmatched resources going to `other`
unchanged, and each bucket preserves the source entry order (it equals
the order-preserving filter of the entry resources by that bucket's
tag predicate); the bucket sizes sum to the number of entries with a
resource. -/
theorem extractResources_partition (bundle : Bundle) :
    extractResources bundle = categorizedSpec (entryResources (bundle.entry.getD []))
    ∧ (extractResources bundle).patients.length + (extractResources bundle).conditions.length
        + (extractResources bundle).medications.length
        + (extractResources bundle).observations.length
        + (extractResources bundle).other.length
      = (entryResources (bundle.entry.getD [])).length := by
  have hmain : extractResources bundle = categorizedSpec (entryResources (bundle.entry.getD [])) := by
    cases hE : bundle.entry with
    | none => simp [extractResources, hE, categorizedSpec, entryResources]
    | some es => simp [extractResources, hE, extractLoop_spec]
  refine ⟨hmain, ?_⟩
  rw [hmain]
  simp only [categorizedSpec]
  exact filter_five_partition_length _

/-- Claim C6: `countResources` returns the length of the entry
sequence, counting entries whose resource is absent (a list of `n`
resource-less entries counts as `n`), and returns `0` when the entry
sequence is absent. -/
theorem countResources_entry_length (ty : String) (es : List BundleEntry) (n : Nat) :
    countResources { type := ty, entry := some es } = es.length
    ∧ countResources { type := ty, entry := none } = 0
    ∧ countResources { type := ty, entry := some (List.replicate n { resource := none }) } = n := by
  refine ⟨rfl, rfl, ?_⟩
  simp [countResources]

/-- The single-Patient bundle of the spec's first concrete scenario. -/
def johnDoePatient : Resource :=
  { resourceType := "Patient",
    name := some [{ given := some ["John"], family := some "Doe" }],
    gender := some "male",
    birthDate := some "1980-01-01" }

/-- Claim C3: the batch with exactly one Patient (given `["John"]`,
family `"Doe"`, gender `"male"`, birthDate `"1980-01-01"`) renders
exactly `PATIENTS:\n1. John Doe (Gender: male, DOB: 1980-01-01)\n\n`
and `countResources` returns 1. -/
theorem johnDoe_narrative :
    convertToHumanReadable
        (extractResources { type := "batch", entry := some [{ resource := some johnDoePatient }] })
      = "PATIENTS:\n1. John Doe (Gender: male, DOB: 1980-01-01)\n\n"
    ∧ countResources { type := "batch", entry := some [{ resource := some johnDoePatient }] } = 1 :=
  ⟨by decide, by decide⟩

/-- Claim C5: `convertToHumanReadable` always emits its sections in the
fixed order Patients, Conditions, Medications, Observations, Other; a
section (header and trailing blank line included) is omitted exactly
when its bucket is empty, and the all-empty categorization renders to
the empty string. -/
theorem convert_fixed_sections (r : Categorized) :
    convertToHumanReadable r =
      patientsSection r.patients ++ conditionsSection r.conditions
        ++ medicationsSection r.medications ++ observationsSection r.observations
        ++ otherSection r.other
    ∧ patientsSection [] = "" ∧ conditionsSection [] = "" ∧ medicationsSection [] = ""
    ∧ observationsSection [] = "" ∧ otherSection [] = ""
    ∧ convertToHumanReadable {} = "" := by
  refine ⟨?_, rfl, rfl, rfl, rfl, rfl, by decide⟩
  simp only [convertToHumanReadable, patientsSection, conditionsSection, medicationsSection,
    observationsSection, otherSection]
  by_cases h1 : r.patients = [] <;> by_cases h2 : r.conditions = [] <;>
    by_cases h3 : r.medications = [] <;> by_cases h4 : r.observations = [] <;>
    by_cases h5 : r.other = [] <;>
    simp [h1, h2, h3, h4, h5, List.length_pos, List.isEmpty_iff, String.empty_append,
      String.append_empty, ← String.append_assoc]

lemma jsOrD_empty (o : Option String) : jsOrD o "" = o.getD "" := by
  cases o with
  | none => rfl
  | some s => by_cases hs : s = "" <;> simp [jsOrD, hs]

/-- Claim C7: the rendered patient name comes from the first name
entry (given names joined by single spaces, family appended after a
space, trimmed), falling back to `Patient ID: {id or "unknown"}`
whenever the result is empty; in particular a patient with no name
entries and no id renders as `Patient ID: unknown`. -/
theorem extractPatientName_spec (p : Resource) :
    extractPatientName p = patientNameSpec p
    ∧ extractPatientName { resourceType := "Patient" } = "Patient ID: unknown" := by
  refine ⟨?_, by decide⟩
  cases hn : p.name with
  | none => simp [extractPatientName, patientNameSpec, hn]
  | some l =>
    cases l with
    | nil => simp [extractPatientName, patientNameSpec, hn]
    | cons n rest =>
      cases hg : n.given <;>
        simp [extractPatientName, patientNameSpec, hn, hg, jsOrD_empty, String.intercalate]

/-- Claim C10: a present-but-empty plain-text field on the code
structure of a condition, medication or observation is treated exactly
like an absent one: text resolution falls through to the coding-based
chain (first coding's display or code, or the Unknown fallback). -/
theorem empty_text_falls_through (r : Resource) (cc : CodeableConcept) :
    (r.code = some cc → cc.text = some "" →
      extractConditionText r = extractConditionText { r with code := some { cc with text := none } }
      ∧ extractObservationText r
          = extractObservationText { r with code := some { cc with text := none } })
    ∧ (r.medicationCodeableConcept = some cc → cc.text = some "" →
      extractMedicationText r
        = extractMedicationText
            { r with medicationCodeableConcept := some { cc with text := none } }) := by
  constructor
  · intro hc ht
    constructor
    · simp [extractConditionText, codeTextOf, hc, ht, strTruthy]
    · simp [extractObservationText, codeTextOf, hc, ht, strTruthy]
  · intro hc ht
    simp [extractMedicationText, codeTextOf, hc, ht, strTruthy]

def ccEmptyText : CodeableConcept :=
  { coding := some [{ display := some "Hypertension" }], text := some "" }

def condEmptyText : Resource := { resourceType := "Condition", code := some ccEmptyText }

def obsEmptyText : Resource := { resourceType := "Observation", code := some ccEmptyText }

def medEmptyText : Resource :=
  { resourceType := "Medication", medicationCodeableConcept := some ccEmptyText }

theorem empty_text_falls_through_witness :
    (extractConditionText condEmptyText
        = extractConditionText { condEmptyText with code := some { ccEmptyText with text := none } }
      ∧ extractObservationText obsEmptyText
        = extractObservationText { obsEmptyText with code := some { ccEmptyText with text := none } })
    ∧ extractMedicationText medEmptyText
        = extractMedicationText
            { medEmptyText with medicationCodeableConcept := some { ccEmptyText with text := none } } :=
  ⟨⟨((empty_text_falls_through condEmptyText ccEmptyText).1 rfl rfl).1,
    ((empty_text_falls_through obsEmptyText ccEmptyText).1 rfl rfl).2⟩,
   (empty_text_falls_through medEmptyText ccEmptyText).2 rfl rfl⟩

/-- Claim C4: the observation value suffix follows the fixed priority
quantity, then plain string, then coded-concept text, then first
coding's display, then no suffix; in particular, when both a quantity
and a string value are present the quantity wins (the rendering does
not depend on the string value). -/
theorem extractObservationText_priority (o : Resource) :
    extractObservationText o
      = codeTextOf o.code "Unknown observation" ++ obsValueSuffixSpec o ++ subjectSuffix o.subject
    ∧ (o.valueQuantity.isSome = true →
        extractObservationText o = extractObservationText { o with valueString := none }) := by
  constructor
  · cases hq : o.valueQuantity with
    | some q => simp [extractObservationText, obsValueSuffixSpec, hq, String.append_assoc]
    | none =>
      by_cases h1 : strTruthy o.valueString <;>
        by_cases h2 : strTruthy (o.valueCodeableConcept.bind CodeableConcept.text) <;>
        by_cases h3 : strTruthy
          (((o.valueCodeableConcept.bind CodeableConcept.coding).bind List.head?).bind
            Coding.display) <;>
        simp [extractObservationText, obsValueSuffixSpec, hq, h1, h2, h3, String.append_assoc,
          String.append_empty]
  · intro hq
    cases hq' : o.valueQuantity with
    | none => rw [hq'] at hq; simp at hq
    | some q => simp [extractObservationText, hq']

/-- An observation carrying both a quantity and a string value. -/
def obsBothValues : Resource :=
  { resourceType := "Observation", code := some { text := some "HbA1c" },
    valueQuantity := some { value := 7, unit := some "%" }, valueString := some "high" }

theorem extractObservationText_priority_witness :
    obsBothValues.valueQuantity.isSome = true
    ∧ extractObservationText obsBothValues
        = extractObservationText { obsBothValues with valueString := none } :=
  ⟨rfl, (extractObservationText_priority obsBothValues).2 rfl⟩

lemma lookupKey_setKey (fs : List (String × JsValue)) (k : String) (w : JsValue) :
    lookupKey (setKey fs k w) k = w := by
  induction fs with
  | nil => simp [setKey, lookupKey]
  | cons p fs ih =>
    obtain ⟨k', v'⟩ := p
    by_cases hk : k' == k
    · simp [setKey, hk, lookupKey]
    · simp [setKey, hk, lookupKey, ih]

/-- Claim C8: after every successful validation the returned bundle's
`entry` field is an array; whenever the input's `entry` held any
non-array value (missing, string, number, ...) it is replaced by the
empty array, and otherwise the bundle is returned unchanged. -/
theorem validate_entry_array (v w : JsValue) (h : validateAndProcessBundle v = .ok w) :
    isArray (getField w "entry") = true
    ∧ (isArray (getField v "entry") = false → getField w "entry" = .arr [])
    ∧ (isArray (getField v "entry") = true → w = v) := by
  unfold validateAndProcessBundle at h
  split at h
  · simp at h
  · split at h
    · simp at h
    · split at h
      · simp at h
      · split at h
        · rename_i h1 h2 h3 h4
          have hw : w = setField v "entry" (.arr []) := by
            injection h with h'
            exact h'.symm
          have hrt : isStr (getField v "resourceType") "Bundle" = true := by simpa using h2
          have hA : isArray (getField v "entry") = false := by simpa using h4
          cases v with
          | obj fs =>
            subst hw
            refine ⟨?_, fun _ => ?_, fun hc => ?_⟩
            · simp [setField, getField, lookupKey_setKey, isArray]
            · simp [setField, getField, lookupKey_setKey]
            · rw [hA] at hc; cases hc
          | jsUndefined => simp [getField, isStr] at hrt
          | null => simp [getField, isStr] at hrt
          | bool b => simp [getField, isStr] at hrt
          | num n => simp [getField, isStr] at hrt
          | str s => simp [getField, isStr] at hrt
          | arr xs => simp [getField, isStr] at hrt
        · rename_i h1 h2 h3 h4
          have hw : w = v := by
            injection h with h'
            exact h'.symm
          have hA : isArray (getField v "entry") = true := by simpa using h4
          subst hw
          refine ⟨hA, ?_, fun _ => rfl⟩
          intro hc
          rw [hc] at hA
          cases hA

theorem validate_entry_array_witness :
    isArray
        (getField
          (.obj [("resourceType", .str "Bundle"), ("type", .str "batch"), ("entry", .arr [])])
          "entry")
      = true
    ∧ getField
        (.obj [("resourceType", .str "Bundle"), ("type", .str "batch"), ("entry", .arr [])])
        "entry"
      = .arr [] := by
  have h := validate_entry_array
    (.obj [("resourceType", .str "Bundle"), ("type", .str "batch"), ("entry", .str "oops")])
    (.obj [("resourceType", .str "Bundle"), ("type", .str "batch"), ("entry", .arr [])])
    rfl
  exact ⟨h.1, h.2.1 rfl⟩

/-- Claim C9: validation checks only the truthiness of `type`: with
`resourceType` `"Bundle"`, any non-empty string `type` (e.g. one not
among batch/transaction/searchset/collection) validates successfully,
while a present-but-empty `type` fails with the type-is-required
message. -/
theorem validate_type_truthiness (s : String) :
    (s ≠ "" →
      validateAndProcessBundle (.obj [("resourceType", .str "Bundle"), ("type", .str s)])
        = .ok (.obj [("resourceType", .str "Bundle"), ("type", .str s), ("entry", .arr [])]))
    ∧ (s = "" →
      validateAndProcessBundle (.obj [("resourceType", .str "Bundle"), ("type", .str s)])
        = .error "Invalid bundle: type is required") := by
  constructor
  · intro hs
    have ht : (s != "") = true := by simpa using hs
    simp [validateAndProcessBundle, truthy, isObjectType, getField, lookupKey, isStr, isArray,
      setField, setKey, ht]
  · intro hs
    subst hs
    simp [validateAndProcessBundle, truthy, isObjectType, getField, lookupKey, isStr, isArray]

theorem validate_type_truthiness_witness :
    validateAndProcessBundle (.obj [("resourceType", .str "Bundle"), ("type", .str "foo")])
      = .ok (.obj [("resourceType", .str "Bundle"), ("type", .str "foo"), ("entry", .arr [])])
    ∧ validateAndProcessBundle (.obj [("resourceType", .str "Bundle"), ("type", .str "")])
      = .error "Invalid bundle: type is required" :=
  ⟨(validate_type_truthiness "foo").1 (by decide), (validate_type_truthiness "").2 rfl⟩

/-- Claim C1 (amended): `validateAndProcessBundle` fails exactly when
the input is not a truthy object-like value, or its `resourceType` is
not the string `"Bundle"`, or its `type` field is not truthy; the
single error kind carries exactly one of the three messages
`Invalid bundle: must be an object`,
`Invalid bundle: resourceType must be "Bundle"`,
`Invalid bundle: type is required`, one per failure case; every other
input is returned (with `entry` normalized) without failing. -/
theorem validate_error_cases (v : JsValue) :
    ((truthy v && isObjectType v) = false →
      validateAndProcessBundle v = .error "Invalid bundle: must be an object")
    ∧ ((truthy v && isObjectType v) = true →
      isStr (getField v "resourceType") "Bundle" = false →
      validateAndProcessBundle v = .error "Invalid bundle: resourceType must be \"Bundle\"")
    ∧ ((truthy v && isObjectType v) = true →
      isStr (getField v "resourceType") "Bundle" = true →
      truthy (getField v "type") = false →
      validateAndProcessBundle v = .error "Invalid bundle: type is required")
    ∧ ((truthy v && isObjectType v) = true →
      isStr (getField v "resourceType") "Bundle" = true →
      truthy (getField v "type") = true →
      validateAndProcessBundle v
        = .ok (if isArray (getField v "entry") then v else setField v "entry" (.arr []))) := by
  refine ⟨fun h1 => ?_, fun h1 h2 => ?_, fun h1 h2 h3 => ?_, fun h1 h2 h3 => ?_⟩
  · simp [validateAndProcessBundle, h1]
  · simp [validateAndProcessBundle, h1, h2]
  · simp [validateAndProcessBundle, h1, h2, h3]
  · by_cases hA : isArray (getField v "entry") <;>
      simp [validateAndProcessBundle, h1, h2, h3, hA]

theorem validate_error_cases_witness :
    validateAndProcessBundle (.str "not a bundle") = .error "Invalid bundle: must be an object"
    ∧ validateAndProcessBundle (.obj [("resourceType", .str "Patient"), ("type", .str "batch")])
      = .error "Invalid bundle: resourceType must be \"Bundle\""
    ∧ validateAndProcessBundle (.obj [("resourceType", .str "Bundle")])
      = .error "Invalid bundle: type is required"
    ∧ validateAndProcessBundle (.obj [("resourceType", .str "Bundle"), ("type", .str "batch")])
      = .ok (.obj [("resourceType", .str "Bundle"), ("type", .str "batch"), ("entry", .arr [])]) :=
  ⟨(validate_error_cases (.str "not a bundle")).1 rfl,
   (validate_error_cases (.obj [("resourceType", .str "Patient"), ("type", .str "batch")])).2.1
     rfl rfl,
   (validate_error_cases (.obj [("resourceType", .str "Bundle")])).2.2.1 rfl rfl rfl,
   (validate_error_cases (.obj [("resourceType", .str "Bundle"), ("type", .str "batch")])).2.2.2
     rfl rfl rfl⟩

/-- Claim C1 counterexample: a bundle whose `type` field is present
(the empty string) still fails, so validation does not fail only when
`type` is absent; and the surfaced reason for a wrong `resourceType`
is `Invalid bundle: resourceType must be "Bundle"`, which neither
equals nor contains any entry of the claimed reason list
`must be an object` / `resourceType must be Bundle` /
`type is required`. -/
theorem validate_reason_counterexample :
    validateAndProcessBundle (.obj [("resourceType", .str "Bundle"), ("type", .str "")])
      = .error "Invalid bundle: type is required"
    ∧ getField (.obj [("resourceType", .str "Bundle"), ("type", .str "")]) "type" = .str ""
    ∧ validateAndProcessBundle (.obj [("resourceType", .str "Patient"), ("type", .str "batch")])
      = .error "Invalid bundle: resourceType must be \"Bundle\""
    ∧ ¬ List.IsInfix "must be an object".toList
        "Invalid bundle: resourceType must be \"Bundle\"".toList
    ∧ ¬ List.IsInfix "resourceType must be Bundle".toList
        "Invalid bundle: resourceType must be \"Bundle\"".toList
    ∧ ¬ List.IsInfix "type is required".toList
        "Invalid bundle: resourceType must be \"Bundle\"".toList :=
  ⟨rfl, rfl, rfl, by decide, by decide, by decide⟩
